import Mathlib

/-!
Verification development for the tpvmap overlay-injection engine.

The repository injects a georeferenced image overlay into third-party map
widgets (Leaflet, Google Maps, Mapbox).  The definitions below are shallow
embeddings of the JavaScript functions in `src/package/overlay.js` and
`src/package/scripts/{leafletOverlay,googleOverlay,mapboxOverlay}.js`:
pure logic becomes Lean functions, mutable state (the id registry, the
polling counters, the observer connection flag) becomes explicit state
passing, thrown JS exceptions become `Except` errors, and JS numbers
become `Rat` (every arithmetic step performed by the code — multiplying a
delay by 1.5, comparing the fixed bound constants — is exact in binary
floating point at the magnitudes involved, so the rational model agrees
with the JS semantics on everything stated here).
-/

namespace TPVMap

/-! ### overlay.js: registry-guarded Leaflet attach (lines 106-132)

`initializedLeafletIds` is a `Set` of `_leaflet_id` values, modelled as a
`List Nat` of registered ids.  `addLeafletOverlay` consults the registry,
returns early when the id is present, and otherwise records the id and
performs the `L.imageOverlay(...).addTo(map)` attachment.  The returned
`Bool` records whether the attachment call was made. -/

def addLeafletOverlay (registry : List Nat) (id : Nat) : List Nat × Bool :=
  if id ∈ registry then (registry, false)
  else (id :: registry, true)

/-- Run a sequence of `addLeafletOverlay` calls (identified by the
`_leaflet_id` of each map argument), threading the registry, and collect
the per-call attachment flags. -/
def runLeafletCalls (registry : List Nat) : List Nat → List Nat × List Bool
  | [] => (registry, [])
  | id :: rest =>
    let step := addLeafletOverlay registry id
    let tail := runLeafletCalls step.1 rest
    (tail.1, step.2 :: tail.2)

theorem runLeafletCalls_registered (registry : List Nat) (i : Nat)
    (h : i ∈ registry) :
    ∀ n, runLeafletCalls registry (List.replicate n i) =
      (registry, List.replicate n false) := by
  intro n
  induction n with
  | zero => simp [runLeafletCalls]
  | succ n ih =>
    simp [List.replicate_succ, runLeafletCalls, addLeafletOverlay, h, ih]

/-! ### overlay.js `pollForLeaflet` (lines 188-198) and
googleOverlay.js `watchForGoogleMaps` / `checkMap` (lines 64-86)

Both pollers are timer recursions.  A run is modelled as the list of
events it produces: each predicate evaluation (with its result) and each
`setTimeout` registration (with the delay passed to it).  The predicate
is a function of the tick index so that "never holds" is the constant
false predicate.

`pollForLeaflet(retries = 20, delay = 300)`: evaluate `globalThis.L?.Map`;
on success stop; otherwise, when `retries > 0`, schedule
`pollForLeaflet(retries - 1, delay * 1.5)` after `delay` ms. -/

inductive PollEvent where
  | eval (result : Bool)
  | schedule (delay : ℚ)
deriving DecidableEq

def pollForLeaflet (pred : Nat → Bool) : Nat → Nat → ℚ → List PollEvent
  | tick, 0, _ => [.eval (pred tick)]
  | tick, retries + 1, delay =>
    if pred tick then [.eval true]
    else .eval false :: .schedule delay ::
      pollForLeaflet pred (tick + 1) retries (delay * (3 / 2))

/-- googleOverlay.js `checkMap`, with `left = maxAttempts - attempts` as
the fuel: evaluate the `svMap` predicate; on success stop; otherwise
`++attempts < maxAttempts` (i.e. `left > 1`) schedules `checkMap` after a
constant 500 ms. -/
def checkMap (pred : Nat → Bool) : Nat → Nat → List PollEvent
  | _, 0 => []
  | tick, left + 1 =>
    if pred tick then [.eval true]
    else if left = 0 then [.eval false]
    else .eval false :: .schedule 500 :: checkMap pred (tick + 1) left

/-- googleOverlay.js `watchForGoogleMaps`: `maxAttempts = 10`, `attempts
= 0`, then `checkMap()` immediately. -/
def watchForGoogleMaps (pred : Nat → Bool) : List PollEvent :=
  checkMap pred 0 10

def PollEvent.isEval : PollEvent → Bool
  | .eval _ => true
  | .schedule _ => false

def PollEvent.delayOf : PollEvent → Option ℚ
  | .eval _ => none
  | .schedule d => some d

def evalCount (trace : List PollEvent) : Nat :=
  trace.countP PollEvent.isEval

def scheduleDelays (trace : List PollEvent) : List ℚ :=
  trace.filterMap PollEvent.delayOf

def neverHolds : Nat → Bool := fun _ => false

theorem pollForLeaflet_evalCount (t r : Nat) (d : ℚ) :
    evalCount (pollForLeaflet neverHolds t r d) = r + 1 := by
  induction r generalizing t d with
  | zero => rfl
  | succ r ih =>
    have h := ih (t + 1) (d * (3 / 2))
    simp only [pollForLeaflet, neverHolds, Bool.false_eq_true, if_false,
      evalCount, List.countP_cons, PollEvent.isEval, if_true] at h ⊢
    omega

theorem pollForLeaflet_scheduleDelays (t r : Nat) (d : ℚ) :
    scheduleDelays (pollForLeaflet neverHolds t r d) =
      (List.range r).map fun k => d * (3 / 2) ^ k := by
  induction r generalizing t d with
  | zero => rfl
  | succ r ih =>
    rw [List.range_succ_eq_map]
    simp only [pollForLeaflet, neverHolds, scheduleDelays, List.filterMap_cons,
      Bool.false_eq_true, if_false, List.map_cons, List.map_map] at ih ⊢
    rw [ih]
    simp only [pow_zero, mul_one, List.map_map]
    refine congrArg (_ :: ·) (List.map_congr_left fun k _ => ?_)
    simp [Function.comp, pow_succ]
    ring

theorem checkMap_evalCount (t left : Nat) :
    evalCount (checkMap neverHolds t (left + 1)) = left + 1 := by
  induction left generalizing t with
  | zero => rfl
  | succ left ih =>
    have h := ih (t + 1)
    simp only [checkMap, neverHolds, Bool.false_eq_true, if_false,
      Nat.succ_ne_zero, evalCount, List.countP_cons, PollEvent.isEval,
      if_true] at h ⊢
    omega

theorem checkMap_scheduleDelays (t left : Nat) :
    scheduleDelays (checkMap neverHolds t (left + 1)) =
      List.replicate left 500 := by
  induction left generalizing t with
  | zero => rfl
  | succ left ih =>
    have h := ih (t + 1)
    simp only [checkMap, neverHolds, Bool.false_eq_true, if_false,
      Nat.succ_ne_zero, scheduleDelays, List.filterMap_cons, PollEvent.delayOf] at h ⊢
    rw [h, List.replicate_succ]

/-! ### leafletOverlay.js `watchForLeaflet` (lines 96-131)

The setter installed on the global binding `L` stores the assigned value
in `_L` and calls `initLeaflet` whenever the new value has a truthy
`.Map` property.  An assigned value is modelled by whether `.Map` is
present.  `watchForLeaflet` first checks `globalThis.L?.Map`: when it is
present, `initLeaflet` runs immediately and no accessor is installed
(subsequent assignments are then plain writes that report nothing);
otherwise the accessor is installed and every later assignment runs the
setter.  The result pairs the immediate-fire flag with the per-assignment
fire trace. -/

structure LVal where
  hasMap : Bool
deriving DecidableEq

def watchForLeaflet (initial : Option LVal) (assigns : List LVal) :
    Bool × List Bool :=
  match initial with
  | some v =>
    if v.hasMap then (true, assigns.map fun _ => false)
    else (false, assigns.map LVal.hasMap)
  | none => (false, assigns.map LVal.hasMap)

/-- Number of `initLeaflet` invocations a `watchForLeaflet` run performs;
each invocation registers exactly one `L.Map.addInitHook` hook. -/
def initLeafletCalls (out : Bool × List Bool) : Nat :=
  (if out.1 then 1 else 0) + out.2.count true

/-! ### mapboxOverlay.js `traverseFiber` (lines 88-98)

A React fiber node is `nil` (JS null) or a node carrying an optional map
handle (`some h` iff `fiber.memoizedProps?.map` is a non-null object)
plus `child` and `sibling` links.  `traverseFiber` returns null for a
null node or at depth above 20, returns the node handle when present,
and otherwise tries the child at `depth + 1`, falling back (JS `||`) to
the sibling at the same depth. -/

inductive Fiber where
  | nil : Fiber
  | node (memoMap : Option Nat) (child sibling : Fiber) : Fiber
deriving DecidableEq

def traverseFiber : Fiber → Nat → Option Nat
  | .nil, _ => none
  | .node m c s, depth =>
    if depth > 20 then none
    else
      match m with
      | some h => some h
      | none => (traverseFiber c (depth + 1)).orElse fun _ =>
          traverseFiber s depth

/-- A chain of `n + 1` fiber nodes linked through `child`, whose only map
handle sits on the last node (at depth `n` when the root is at depth 0). -/
def chainFiber : Nat → Fiber
  | 0 => .node (some 7) .nil .nil
  | n + 1 => .node none (chainFiber n) .nil

/-! ### leafletOverlay.js value model: `isLeafletMap` (lines 32-34),
`hasOverlay` (lines 42-51), googleOverlay.js `isGoogleMap` (lines 30-32)

Candidate values handed to the adapters by untrusted page internals.
`vLeafletMap` carries the layers its `eachLayer` iterates over; a layer
is recorded by whether it is an `L.ImageOverlay` and by
`layer.getElement()?.src` (`none` when `getElement()` is null).
`instanceof` never throws whatever its left operand is, so the
recognizers are total Booleans; `hasOverlay` calls `map.eachLayer(...)`,
which is a JS TypeError — modelled as `Except.error` — whenever the
argument is null, undefined, or any value without an `eachLayer`
method (in particular a plain object or a Google map). -/

structure LayerV where
  isImageOverlay : Bool
  elementSrc : Option String
deriving DecidableEq

inductive JSVal where
  | vNull : JSVal
  | vUndefined : JSVal
  | vLeafletMap (id : Nat) (layers : List LayerV) : JSVal
  | vGoogleMap (id : Nat) : JSVal
  | vPlainObj : JSVal
deriving DecidableEq

/-- The overlay image locator `tpVirtualMap.url`. -/
def tpVirtualMapUrl : String := "chrome-extension://tpvmap/assets/tpvirtual.jpg"

def isLeafletMap (map : JSVal) : Bool :=
  match map with
  | .vLeafletMap _ _ => true
  | _ => false

def isGoogleMap (map : JSVal) : Bool :=
  match map with
  | .vGoogleMap _ => true
  | _ => false

def hasOverlay (map : JSVal) : Except String Bool :=
  match map with
  | .vLeafletMap _ layers =>
    .ok (layers.any fun layer =>
      layer.isImageOverlay && layer.elementSrc == some tpVirtualMapUrl)
  | .vNull => .error "TypeError: cannot read properties of null"
  | .vUndefined => .error "TypeError: cannot read properties of undefined"
  | _ => .error "TypeError: map.eachLayer is not a function"

/-! ### leafletOverlay.js `initLeaflet` (lines 102-112) and
googleOverlay.js `checkMap` error flow (lines 73-83)

`initLeaflet` wraps `L.Map.addInitHook` and `initExistingMaps` in a
try/catch whose handler only logs (`console.error`).  The two calls into
the library are modelled by whether they throw; the run returns the list
of logged messages, and an `Except.error` would mean an exception
escaped into the host page.  `checkMap` in googleOverlay.js has no
try/catch around `addGoogleOverlay`, so a throw from the attach call
(`new google.maps.GroundOverlay` / `overlay.setMap`) propagates to the
caller. -/

structure LEnv where
  addInitHookErr : Option String
  initExistingErr : Option String
deriving DecidableEq

def initLeafletBody (env : LEnv) : Except String Unit :=
  match env.addInitHookErr with
  | some e => .error e
  | none =>
    match env.initExistingErr with
    | some e => .error e
    | none => .ok ()

def initLeaflet (env : LEnv) : Except String (List String) :=
  match initLeafletBody env with
  | .ok _ => .ok []
  | .error e => .ok [String.append "Failed to initialize Leaflet overlay:" e]

structure GEnv where
  svMapPresent : Bool
  googleMapsPresent : Bool
  svMapIsGoogleMap : Bool
  attachErr : Option String
deriving DecidableEq

def attachGoogleOverlay (env : GEnv) : Except String Unit :=
  match env.attachErr with
  | some e => .error e
  | none => .ok ()

def checkMapOnce (env : GEnv) : Except String Bool :=
  if env.svMapPresent && env.googleMapsPresent && env.svMapIsGoogleMap then do
    attachGoogleOverlay env
    pure true
  else pure false

/-! ### mapboxOverlay.js observer wiring (lines 121-139)

The `MutationObserver` callback re-queries `.mapboxgl-map`; when the
container is present and `initMapFromContainer` finds a map in its fiber
tree, the overlay is attached and `observer.disconnect()` is called.
The existing-container check performed right after installation calls
`initMapFromContainer` but never disconnects.  State: whether the
observer is still connected (a disconnected observer no longer fires)
and how many overlay attachments have been performed. -/

structure MObsState where
  connected : Bool
  attachCount : Nat
deriving DecidableEq

def observerCallback (containerFound matchFound : Bool) (s : MObsState) :
    MObsState :=
  if !s.connected then s
  else if !containerFound then s
  else if matchFound then
    MObsState.mk false (s.attachCount + 1)
  else s

def existingContainerCheck (containerFound matchFound : Bool)
    (s : MObsState) : MObsState :=
  if containerFound && matchFound then
    MObsState.mk s.connected (s.attachCount + 1)
  else s

/-! ### the `tpVirtualMap` bound constants and googleOverlay.js
`addGoogleOverlay` (overlay.js lines 76-82 and 141-157,
leafletOverlay.js lines 19-25)

Bounds as exact rationals.  `addGoogleOverlay` constructs a fresh
`google.maps.GroundOverlay` on every call and attaches it with
`overlay.setMap(map)`, with no registry lookup and no presence probe;
object identity of each `new` result is modelled by a creation index. -/

structure OverlaySpec where
  north : ℚ
  south : ℚ
  east : ℚ
  west : ℚ
deriving DecidableEq

/-- The bounds in overlay.js (both IIFE variants). -/
def tpVirtualMapOverlayJs : OverlaySpec :=
  OverlaySpec.mk (-1410449 / 1000000) (-1447183 / 1000000)
    (149674004 / 1000000) (149590976 / 1000000)

/-- The bounds in scripts/leafletOverlay.js, scripts/googleOverlay.js,
scripts/mapboxOverlay.js and scripts/config.js. -/
def tpVirtualMapScripts : OverlaySpec :=
  OverlaySpec.mk (-1374593 / 1000000) (-1482999 / 1000000)
    (149686722 / 1000000) (149578094 / 1000000)

def validBounds (spec : OverlaySpec) : Prop :=
  spec.north > spec.south ∧ spec.east > spec.west

/-- Every `tpVirtualMap` literal the program builds. -/
def programSpecs : List OverlaySpec :=
  [tpVirtualMapOverlayJs, tpVirtualMapScripts]

structure GroundOverlay where
  v_url : String
  v_north : ℚ
  v_south : ℚ
  v_east : ℚ
  v_west : ℚ
  oid : Nat
deriving DecidableEq

structure GMapState where
  attached : List GroundOverlay
  nextId : Nat
deriving DecidableEq

def addGoogleOverlay (s : GMapState) : GMapState :=
  GMapState.mk
    (s.attached ++
      [GroundOverlay.mk tpVirtualMapUrl tpVirtualMapScripts.north
        tpVirtualMapScripts.south tpVirtualMapScripts.east
        tpVirtualMapScripts.west s.nextId])
    (s.nextId + 1)

/-- A freshly created Google map: no overlays attached yet. -/
def gInit : GMapState := GMapState.mk [] 0

end TPVMap

/-- C2 (counterexample): the claim says a polling strategy with configured
attempt count `R` performs exactly `R` predicate evaluations when the
predicate never holds.  `pollForLeaflet` configured with `retries = 2`
performs 3 evaluations, not 2: one immediate evaluation plus one per
scheduled retry. -/
theorem c2_pollForLeaflet_eval_count_counterexample :
    TPVMap.evalCount (TPVMap.pollForLeaflet TPVMap.neverHolds 0 2 300) = 3 ∧
      (3 : Nat) ≠ 2 := by
  constructor
  · rfl
  · decide

/-- C2 (amended): with the predicate never holding, `pollForLeaflet`
with `retries = R` and initial delay `d0` schedules its k-th retry (1-based)
after a delay of `d0 * 1.5 ^ (k - 1)` — the scheduled delays are exactly
`[d0, d0 * 1.5, ..., d0 * 1.5 ^ (R - 1)]` — and performs `R + 1` predicate
evaluations (one immediate plus one per scheduled retry) before stopping;
`watchForGoogleMaps` (maxAttempts = 10, constant 500 ms delay, factor 1)
performs exactly 10 evaluations with every scheduled delay equal to 500 ms.
Exhaustion is silent in both: the trace stops without any further timer
and the event type has no error outcome. -/
theorem c2_polling_backoff_schedule (R t : Nat) (d0 : ℚ) :
    TPVMap.scheduleDelays (TPVMap.pollForLeaflet TPVMap.neverHolds t R d0) =
      (List.range R).map (fun k => d0 * (3 / 2) ^ k) ∧
    TPVMap.evalCount (TPVMap.pollForLeaflet TPVMap.neverHolds t R d0) = R + 1 ∧
    TPVMap.evalCount (TPVMap.watchForGoogleMaps TPVMap.neverHolds) = 10 ∧
    TPVMap.scheduleDelays (TPVMap.watchForGoogleMaps TPVMap.neverHolds) =
      List.replicate 9 500 := by
  refine ⟨TPVMap.pollForLeaflet_scheduleDelays t R d0,
    TPVMap.pollForLeaflet_evalCount t R d0,
    TPVMap.checkMap_evalCount 0 9, TPVMap.checkMap_scheduleDelays 0 9⟩

/-- C1: overlay.js keys its registry on `_leaflet_id`; starting from the
empty registry, any sequence of `n + 1` `addLeafletOverlay` calls on maps
sharing one `_leaflet_id` performs the `L.imageOverlay(...).addTo`
attachment exactly on the first call, and every later call is a no-op. -/
theorem c1_addLeafletOverlay_idempotent (n i : Nat) :
    (TPVMap.runLeafletCalls [] (List.replicate (n + 1) i)).2 =
      true :: List.replicate n false ∧
    ((TPVMap.runLeafletCalls [] (List.replicate (n + 1) i)).2.count true = 1) := by
  have hmem : i ∈ [i] := by simp
  have hrest := TPVMap.runLeafletCalls_registered [i] i hmem n
  constructor
  · simp [List.replicate_succ, TPVMap.runLeafletCalls, TPVMap.addLeafletOverlay,
      hrest]
  · simp [List.replicate_succ, TPVMap.runLeafletCalls, TPVMap.addLeafletOverlay,
      hrest, List.count_replicate]

/-- C3: with the binding unpopulated at installation time, assigning a
value without `.Map` and then a value with `.Map` makes the setter call
`initLeaflet` exactly once, on the second assignment; and when the
binding already holds a recognized value at installation time,
`watchForLeaflet` fires `initLeaflet` immediately, before any
assignment. -/
theorem c3_property_interception_exactness :
    (TPVMap.watchForLeaflet none [TPVMap.LVal.mk false, TPVMap.LVal.mk true]).2 =
      [false, true] ∧
    TPVMap.initLeafletCalls
      (TPVMap.watchForLeaflet none [TPVMap.LVal.mk false, TPVMap.LVal.mk true]) = 1 ∧
    (TPVMap.watchForLeaflet (some (TPVMap.LVal.mk true)) []).1 = true := by
  refine ⟨rfl, rfl, rfl⟩

/-- C4: `traverseFiber` yields null at every node once the depth exceeds
20; at depth at most 20 it returns the handle of the current node when
present and otherwise recurses into the child at `depth + 1` and then,
on failure, the sibling at the same depth (first match wins); and on a
25-node child chain whose only map handle sits at depth 24 — past the
depth-20 cap — the traversal started at the root reports no match. -/
theorem c4_traverseFiber_depth_capped_dfs :
    (∀ (f : TPVMap.Fiber) (k : Nat), TPVMap.traverseFiber f (k + 21) = none) ∧
    (∀ (h : Nat) (c s : TPVMap.Fiber) (k : Nat),
      TPVMap.traverseFiber (TPVMap.Fiber.node (some h) c s) (20 - k) = some h) ∧
    (∀ (c s : TPVMap.Fiber) (k : Nat),
      TPVMap.traverseFiber (TPVMap.Fiber.node none c s) (20 - k) =
        (TPVMap.traverseFiber c (20 - k + 1)).orElse fun _ =>
          TPVMap.traverseFiber s (20 - k)) ∧
    TPVMap.traverseFiber (TPVMap.chainFiber 24) 0 = none := by
  refine ⟨?_, ?_, ?_, ?_⟩
  · intro f k
    cases f with
    | nil => rfl
    | node m c s =>
      have hgt : k + 21 > 20 := by omega
      simp [TPVMap.traverseFiber, hgt]
  · intro h c s k
    have hle : ¬ (20 - k > 20) := by omega
    simp [TPVMap.traverseFiber, hle]
  · intro c s k
    have hle : ¬ (20 - k > 20) := by omega
    simp [TPVMap.traverseFiber, hle]
  · rfl

/-- C10: the accessor installed by `watchForLeaflet` is never removed:
with the binding unpopulated at installation time, every one of `k`
assignments of a recognized value (with `.Map`) fires the setter, so
`initLeaflet` runs — and registers an init hook — `k` times, including
on every assignment after the first success. -/
theorem c10_accessor_persists_after_success (k : Nat) :
    (TPVMap.watchForLeaflet none (List.replicate k (TPVMap.LVal.mk true))).2 =
      List.replicate k true ∧
    TPVMap.initLeafletCalls
      (TPVMap.watchForLeaflet none (List.replicate k (TPVMap.LVal.mk true))) = k := by
  constructor
  · simp [TPVMap.watchForLeaflet, List.map_replicate, TPVMap.LVal.hasMap]
  · simp [TPVMap.watchForLeaflet, TPVMap.initLeafletCalls, List.map_replicate,
      List.count_replicate]

/-- C5 (counterexample): the claim says `hasOverlay` does not throw and
returns false for null input; but `hasOverlay(null)` evaluates
`null.eachLayer`, which throws a TypeError rather than returning an
answer. -/
theorem c5_hasOverlay_null_throws_counterexample :
    TPVMap.hasOverlay TPVMap.JSVal.vNull =
      Except.error "TypeError: cannot read properties of null" ∧
    ∀ b : Bool, TPVMap.hasOverlay TPVMap.JSVal.vNull ≠ Except.ok b := by
  refine ⟨rfl, fun b h => Except.noConfusion h⟩

/-- C5 (amended): the recognizers `isLeafletMap` and `isGoogleMap` are
`instanceof` tests, which never throw and return false for null,
undefined, a plain object, and a map of the other library; `hasOverlay`
returns false without throwing for an `L.Map` instance that carries no
overlay, but it throws a TypeError for null, undefined, or any value
without an `eachLayer` method. -/
theorem c5_adapter_defensiveness_amended :
    (TPVMap.isLeafletMap TPVMap.JSVal.vNull = false ∧
      TPVMap.isLeafletMap TPVMap.JSVal.vUndefined = false ∧
      TPVMap.isLeafletMap TPVMap.JSVal.vPlainObj = false ∧
      ∀ i : Nat, TPVMap.isLeafletMap (TPVMap.JSVal.vGoogleMap i) = false) ∧
    (TPVMap.isGoogleMap TPVMap.JSVal.vNull = false ∧
      TPVMap.isGoogleMap TPVMap.JSVal.vUndefined = false ∧
      TPVMap.isGoogleMap TPVMap.JSVal.vPlainObj = false ∧
      ∀ (i : Nat) (layers : List TPVMap.LayerV),
        TPVMap.isGoogleMap (TPVMap.JSVal.vLeafletMap i layers) = false) ∧
    (∀ i : Nat,
      TPVMap.hasOverlay (TPVMap.JSVal.vLeafletMap i []) = Except.ok false) ∧
    (TPVMap.hasOverlay TPVMap.JSVal.vNull =
        Except.error "TypeError: cannot read properties of null" ∧
      TPVMap.hasOverlay TPVMap.JSVal.vUndefined =
        Except.error "TypeError: cannot read properties of undefined" ∧
      TPVMap.hasOverlay TPVMap.JSVal.vPlainObj =
        Except.error "TypeError: map.eachLayer is not a function") := by
  exact ⟨⟨rfl, rfl, rfl, fun i => rfl⟩, ⟨rfl, rfl, rfl, fun i layers => rfl⟩,
    fun i => rfl, rfl, rfl, rfl⟩

/-- C6 (counterexample): the claim says every exception from an attach
call is caught at the adapter boundary; but googleOverlay.js `checkMap`
has no try/catch, so when `svMap` is a recognized Google map and the
attach call throws, the exception propagates out of `checkMap` into the
host page context instead of being caught. -/
theorem c6_checkMap_error_propagates_counterexample :
    TPVMap.checkMapOnce
        (TPVMap.GEnv.mk true true true (some "TypeError: boom")) =
      Except.error "TypeError: boom" ∧
    ∀ b : Bool,
      TPVMap.checkMapOnce
          (TPVMap.GEnv.mk true true true (some "TypeError: boom")) ≠
        Except.ok b := by
  refine ⟨rfl, fun b h => Except.noConfusion h⟩

/-- C6 (amended): the Leaflet init path contains errors — whatever
`L.Map.addInitHook` or `initExistingMaps` throws, `initLeaflet` catches
it and only logs, never letting it escape — while the Google polling
path does not: any exception thrown by the attach call inside `checkMap`
propagates to the caller. -/
theorem c6_error_containment_amended :
    (∀ env : TPVMap.LEnv, ∃ logs, TPVMap.initLeaflet env = Except.ok logs) ∧
    (∀ e : String,
      TPVMap.checkMapOnce (TPVMap.GEnv.mk true true true (some e)) =
        Except.error e) := by
  constructor
  · intro env
    cases hb : TPVMap.initLeafletBody env with
    | ok u => exact ⟨[], by simp [TPVMap.initLeaflet, hb]⟩
    | error e =>
      exact ⟨["Failed to initialize Leaflet overlay:".append e],
        by simp [TPVMap.initLeaflet, hb]⟩
  · intro e
    rfl

/-- C7 (counterexample): the claim says a match found via the immediate
manual check disconnects the observer and the strategy never fires
again; but `existingContainerCheck` performs the attachment without
disconnecting, and a subsequent mutation fires the observer callback and
attaches a second time. -/
theorem c7_manual_check_keeps_observer_connected_counterexample :
    (TPVMap.existingContainerCheck true true
        (TPVMap.MObsState.mk true 0)).connected = true ∧
    (TPVMap.observerCallback true true
        (TPVMap.existingContainerCheck true true
          (TPVMap.MObsState.mk true 0))).attachCount = 2 := by
  exact ⟨rfl, rfl⟩

/-- C7 (amended): a match reported through the observer callback
disconnects the observer, and a disconnected observer never fires again
(its callback leaves the state unchanged); a match found by the
immediate existing-container check performs the attachment but leaves
the observer connection state unchanged, so a later mutation can fire
the strategy again. -/
theorem c7_observer_one_shot_amended :
    (∀ n : Nat,
      TPVMap.observerCallback true true (TPVMap.MObsState.mk true n) =
        TPVMap.MObsState.mk false (n + 1)) ∧
    (∀ (c m : Bool) (n : Nat),
      TPVMap.observerCallback c m (TPVMap.MObsState.mk false n) =
        TPVMap.MObsState.mk false n) ∧
    (∀ (b : Bool) (n : Nat),
      TPVMap.existingContainerCheck true true (TPVMap.MObsState.mk b n) =
        TPVMap.MObsState.mk b (n + 1)) := by
  exact ⟨fun n => rfl, fun c m n => rfl, fun b n => rfl⟩

/-- C8: every `tpVirtualMap` bounds literal the program builds — the one
in overlay.js and the one shared by the scripts/ overlay files —
satisfies the non-degenerate-rectangle invariant `north > south` and
`east > west`; the program constructs no other `OverlaySpec`, so no
construction with invalid bounds exists. -/
theorem c8_bounds_validity :
    TPVMap.programSpecs.Forall TPVMap.validBounds := by
  simp only [TPVMap.programSpecs, List.Forall, TPVMap.validBounds]
  norm_num [TPVMap.tpVirtualMapOverlayJs, TPVMap.tpVirtualMapScripts]

theorem addGoogleOverlay_iterate_oids (n : Nat) :
    (TPVMap.addGoogleOverlay^[n] TPVMap.gInit).attached.map
        TPVMap.GroundOverlay.oid = List.range n ∧
    (TPVMap.addGoogleOverlay^[n] TPVMap.gInit).nextId = n := by
  induction n with
  | zero => exact ⟨rfl, rfl⟩
  | succ n ih =>
    rw [Function.iterate_succ_apply']
    refine ⟨?_, ?_⟩
    · simp only [TPVMap.addGoogleOverlay, List.map_append, ih.1, ih.2,
        List.map_cons, List.map_nil, List.range_succ]
    · simp only [TPVMap.addGoogleOverlay, ih.2]

/-- C9: googleOverlay.js `addGoogleOverlay` is not idempotent: every
call unconditionally constructs a fresh `google.maps.GroundOverlay` and
attaches it via `setMap`, with no registry lookup and no presence probe,
so the attachment count always grows by one, and `n` invocations on a
fresh map leave `n` pairwise-distinct overlay objects attached (their
creation identities are exactly `0, ..., n - 1`). -/
theorem c9_addGoogleOverlay_not_idempotent (n : Nat) :
    (∀ s : TPVMap.GMapState,
      (TPVMap.addGoogleOverlay s).attached.length = s.attached.length + 1) ∧
    (TPVMap.addGoogleOverlay^[n] TPVMap.gInit).attached.length = n ∧
    (TPVMap.addGoogleOverlay^[n] TPVMap.gInit).attached.map
        TPVMap.GroundOverlay.oid = List.range n ∧
    ((TPVMap.addGoogleOverlay^[n] TPVMap.gInit).attached.map
        TPVMap.GroundOverlay.oid).Nodup := by
  have h := addGoogleOverlay_iterate_oids n
  refine ⟨fun s => by simp [TPVMap.addGoogleOverlay], ?_, h.1, ?_⟩
  · have hlen := congrArg List.length h.1
    simpa using hlen
  · rw [h.1]
    exact List.nodup_range n
